import Mathlib

/-!
Verification of the VA-API image module of the vaapi/vdpau-driver repository
(src/src/vdpau_image.c), shallowly embedded in Lean 4.

Conventions of the embedding:
* C `unsigned int` (32-bit) arithmetic is modelled over `Nat`, with `% U32`
  (`U32 = 2^32`) inserted at the points where the C code stores a value into
  an `unsigned int` field.  The `int` arguments `width`/`height` are modelled
  as `Nat` (the driver only makes sense for non-negative dimensions).
* Numeric constants (VA status codes, fourcc codes, VDPAU status codes and
  format codes) use the values of the public va.h / vdpau.h headers, which
  the repository includes.
* External collaborators (the VDPAU accelerator entry points, the buffer
  heap of vdpau_buffer.c, the object heap allocator) are modelled as oracle
  parameters: functions supplied to each operation, so nothing is assumed
  about their behaviour.
* Pointers are modelled as natural-number addresses; the per-plane source
  pointers computed by vdpau_GetImage become `base + offset` values.
-/

/-- 2^32, the modulus of C `unsigned int` arithmetic. -/
def U32 : Nat := 4294967296

-- VA status codes (va.h)
def VA_STATUS_SUCCESS : Nat := 0
def VA_STATUS_ERROR_OPERATION_FAILED : Nat := 1
def VA_STATUS_ERROR_ALLOCATION_FAILED : Nat := 2
def VA_STATUS_ERROR_INVALID_CONTEXT : Nat := 5
def VA_STATUS_ERROR_INVALID_SURFACE : Nat := 6
def VA_STATUS_ERROR_INVALID_BUFFER : Nat := 7
def VA_STATUS_ERROR_INVALID_IMAGE : Nat := 8
def VA_STATUS_ERROR_INVALID_PARAMETER : Nat := 18

-- va.h byte-order flags
def VA_LSB_FIRST : Nat := 1
def VA_MSB_FIRST : Nat := 2

-- VA_FOURCC values: a | b<<8 | c<<16 | d<<24 over the ASCII codes
def VA_FOURCC_NV12 : Nat := 842094158
def VA_FOURCC_YV12 : Nat := 842094169
def VA_FOURCC_UYVY : Nat := 1498831189
def VA_FOURCC_YUYV : Nat := 1448695129
def VA_FOURCC_AYUV : Nat := 1448433985
def VA_FOURCC_RGBA : Nat := 1094862674

-- VDPAU constants (vdpau.h)
def VDP_STATUS_OK : Nat := 0
def VDP_INVALID_HANDLE : Nat := 4294967295
def VDP_CHROMA_TYPE_420 : Nat := 0
def VDP_YCBCR_FORMAT_NV12 : Nat := 0
def VDP_YCBCR_FORMAT_YV12 : Nat := 1
def VDP_YCBCR_FORMAT_UYVY : Nat := 2
def VDP_YCBCR_FORMAT_YUYV : Nat := 3
def VDP_YCBCR_FORMAT_V8U8Y8A8 : Nat := 5
def VDP_RGBA_FORMAT_B8G8R8A8 : Nat := 0
def VDP_RGBA_FORMAT_R8G8B8A8 : Nat := 1

/-- The value `(VdpYCbCrFormat)-1` / `(VdpRGBAFormat)-1` returned by the two
catalog lookup functions on a miss: the all-ones 32-bit word. -/
def VDP_FORMAT_NOT_FOUND : Nat := 4294967295

/-- VAImageFormat (va.h): fourcc, byte order, bits per pixel, and the
RGB depth/mask fields (zero-initialised for the YUV catalog rows). -/
structure VAImageFormat where
  fourcc : Nat
  byte_order : Nat
  bits_per_pixel : Nat
  depth : Nat
  red_mask : Nat
  green_mask : Nat
  blue_mask : Nat
  alpha_mask : Nat
  deriving DecidableEq, Repr

/-- VdpImageFormatType (vdpau_image.c lines 31-35). -/
inductive VdpImageFormatType where
  | ycbcr
  | rgba
  | indexed
  deriving DecidableEq, Repr

/-- vdpau_image_format_map_t (vdpau_image.c lines 37-41). -/
structure vdpau_image_format_map_t where
  type : VdpImageFormatType
  format : Nat
  va_format : VAImageFormat
  deriving DecidableEq, Repr

/-- The static format catalog `vdpau_image_formats_map` (vdpau_image.c
lines 43-69), little-endian build (the `#ifdef WORDS_BIGENDIAN` branch is
not taken): five YCbCr rows and two RGBA rows sharing the fourcc RGBA. -/
def vdpau_image_formats_map : List vdpau_image_format_map_t :=
  [ { type := .ycbcr, format := VDP_YCBCR_FORMAT_NV12,
      va_format := { fourcc := VA_FOURCC_NV12, byte_order := VA_LSB_FIRST,
                     bits_per_pixel := 12, depth := 0, red_mask := 0,
                     green_mask := 0, blue_mask := 0, alpha_mask := 0 } },
    { type := .ycbcr, format := VDP_YCBCR_FORMAT_YV12,
      va_format := { fourcc := VA_FOURCC_YV12, byte_order := VA_LSB_FIRST,
                     bits_per_pixel := 12, depth := 0, red_mask := 0,
                     green_mask := 0, blue_mask := 0, alpha_mask := 0 } },
    { type := .ycbcr, format := VDP_YCBCR_FORMAT_UYVY,
      va_format := { fourcc := VA_FOURCC_UYVY, byte_order := VA_LSB_FIRST,
                     bits_per_pixel := 16, depth := 0, red_mask := 0,
                     green_mask := 0, blue_mask := 0, alpha_mask := 0 } },
    { type := .ycbcr, format := VDP_YCBCR_FORMAT_YUYV,
      va_format := { fourcc := VA_FOURCC_YUYV, byte_order := VA_LSB_FIRST,
                     bits_per_pixel := 16, depth := 0, red_mask := 0,
                     green_mask := 0, blue_mask := 0, alpha_mask := 0 } },
    { type := .ycbcr, format := VDP_YCBCR_FORMAT_V8U8Y8A8,
      va_format := { fourcc := VA_FOURCC_AYUV, byte_order := VA_LSB_FIRST,
                     bits_per_pixel := 32, depth := 0, red_mask := 0,
                     green_mask := 0, blue_mask := 0, alpha_mask := 0 } },
    { type := .rgba, format := VDP_RGBA_FORMAT_B8G8R8A8,
      va_format := { fourcc := VA_FOURCC_RGBA, byte_order := VA_LSB_FIRST,
                     bits_per_pixel := 32, depth := 32, red_mask := 16711680,
                     green_mask := 65280, blue_mask := 255,
                     alpha_mask := 4278190080 } },
    { type := .rgba, format := VDP_RGBA_FORMAT_R8G8B8A8,
      va_format := { fourcc := VA_FOURCC_RGBA, byte_order := VA_LSB_FIRST,
                     bits_per_pixel := 32, depth := 32, red_mask := 255,
                     green_mask := 65280, blue_mask := 16711680,
                     alpha_mask := 4278190080 } } ]

/-- get_VdpYCbCrFormat (vdpau_image.c lines 72-84): first catalog row of
class YCbCr with a matching fourcc; `(VdpYCbCrFormat)-1` on a miss. -/
def get_VdpYCbCrFormat (image_format : VAImageFormat) : Nat :=
  match vdpau_image_formats_map.find? (fun m =>
      m.type == VdpImageFormatType.ycbcr &&
      m.va_format.fourcc == image_format.fourcc) with
  | some m => m.format
  | none => VDP_FORMAT_NOT_FOUND

/-- get_VdpRGBAFormat (vdpau_image.c lines 87-102): first catalog row of
class RGBA matching fourcc, byte order and the red/green/blue masks;
`(VdpRGBAFormat)-1` on a miss. -/
def get_VdpRGBAFormat (image_format : VAImageFormat) : Nat :=
  match vdpau_image_formats_map.find? (fun m =>
      m.type == VdpImageFormatType.rgba &&
      m.va_format.fourcc == image_format.fourcc &&
      m.va_format.byte_order == image_format.byte_order &&
      m.va_format.red_mask == image_format.red_mask &&
      m.va_format.green_mask == image_format.green_mask &&
      m.va_format.blue_mask == image_format.blue_mask) with
  | some m => m.format
  | none => VDP_FORMAT_NOT_FOUND

/-- The accelerator capability-query entry points consumed by
is_supported_format: each returns (VdpStatus, is_supported out-value). -/
structure Accel where
  query_ycbcr_caps : Nat → Nat → Nat × Bool
  query_rgba_caps : Nat → Nat × Bool

/-- is_supported_format (vdpau_image.c lines 105-136): a format class/code
is supported iff the class-specific capability query returns VDP_STATUS_OK
and reports support; the default (indexed) branch sets an error status, so
it is never supported. -/
def is_supported_format (accel : Accel) (type : VdpImageFormatType)
    (format : Nat) : Bool :=
  match type with
  | .ycbcr =>
      let q := accel.query_ycbcr_caps VDP_CHROMA_TYPE_420 format
      q.1 == VDP_STATUS_OK && q.2
  | .rgba =>
      let q := accel.query_rgba_caps format
      q.1 == VDP_STATUS_OK && q.2
  | .indexed => false

/-- vdpau_QueryImageFormats (vdpau_image.c lines 139-167).
`has_format_list` models whether the `format_list` pointer is non-NULL.
Result: (VAStatus, value stored in *num_formats, entries written to
format_list).  With a NULL list the function returns immediately after
zeroing *num_formats; otherwise it writes one entry per supported catalog
row, in catalog order, and stores the write count. -/
def vdpau_QueryImageFormats (accel : Accel) (has_format_list : Bool) :
    Nat × Nat × List VAImageFormat :=
  if has_format_list = false then
    (VA_STATUS_SUCCESS, 0, [])
  else
    let entries :=
      (vdpau_image_formats_map.filter
        (fun f => is_supported_format accel f.type f.format)).map
        (fun f => f.va_format)
    (VA_STATUS_SUCCESS, entries.length, entries)

/-- The plane layout stored into a VAImage by vdpau_CreateImage:
num_planes, pitches[], offsets[], data_size. -/
structure ImageLayout where
  num_planes : Nat
  pitches : List Nat
  offsets : List Nat
  data_size : Nat
  deriving DecidableEq, Repr

/-- The plane-layout computation of vdpau_CreateImage (vdpau_image.c lines
204-246): the `size/width2/height2/size2` prologue and the layout
assignments of the `switch (format->fourcc)`.  All stored fields are
`unsigned int`, hence the `% U32` reductions.  `none` is the `default:`
branch (unsupported fourcc).  The RGBA case additionally resolves the
catalog entry and creates a companion surface before falling through to
the packed layout; those steps are side effects kept in `vdpau_CreateImage`
below, the layout values being the same as for UYVY/YUYV. -/
def plan (fourcc width height : Nat) : Option ImageLayout :=
  if fourcc = VA_FOURCC_NV12 then
    some { num_planes := 2,
           pitches := [width % U32, width % U32],
           offsets := [0, width * height % U32],
           data_size := (width * height % U32 +
             2 * ((width + 1) / 2 % U32 * ((height + 1) / 2 % U32) % U32)) % U32 }
  else if fourcc = VA_FOURCC_YV12 then
    some { num_planes := 3,
           pitches := [width % U32, (width + 1) / 2 % U32, (width + 1) / 2 % U32],
           offsets := [0,
             (width * height % U32 +
               (width + 1) / 2 % U32 * ((height + 1) / 2 % U32) % U32) % U32,
             width * height % U32],
           data_size := (width * height % U32 +
             2 * ((width + 1) / 2 % U32 * ((height + 1) / 2 % U32) % U32)) % U32 }
  else if fourcc = VA_FOURCC_RGBA ∨ fourcc = VA_FOURCC_UYVY ∨
          fourcc = VA_FOURCC_YUYV then
    some { num_planes := 1,
           pitches := [width * 4 % U32],
           offsets := [0],
           data_size := (0 + width * 4 % U32 * height) % U32 }
  else
    none

example : plan VA_FOURCC_NV12 1920 1080 =
    some { num_planes := 2, pitches := [1920, 1920], offsets := [0, 2073600],
           data_size := 3110400 } := by decide

example : plan VA_FOURCC_YV12 4 4 =
    some { num_planes := 3, pitches := [4, 2, 2], offsets := [0, 20, 16],
           data_size := 24 } := by decide

example : plan VA_FOURCC_RGBA 2 1 =
    some { num_planes := 1, pitches := [8], offsets := [0], data_size := 8 } := by
  decide

example : get_VdpYCbCrFormat
    { fourcc := VA_FOURCC_YV12, byte_order := VA_LSB_FIRST, bits_per_pixel := 12,
      depth := 0, red_mask := 0, green_mask := 0, blue_mask := 0,
      alpha_mask := 0 } = VDP_YCBCR_FORMAT_YV12 := by decide

/-- VAImage (va.h), restricted to the fields vdpau_image.c touches.  The C
fixed arrays `pitches[3]` / `offsets[3]` are modelled as lists read through
`List.getD`. -/
structure VAImage where
  image_id : Nat
  buf : Nat
  format : VAImageFormat
  width : Nat
  height : Nat
  num_planes : Nat
  pitches : List Nat
  offsets : List Nat
  data_size : Nat
  num_palette_entries : Nat
  entry_bytes : Nat
  deriving Repr

/-- object_image (vdpau_image.h): the heap object holding the VAImage
pointer and the optional companion RGBA surface handle.  The C pointer
aliasing of `obj_image->image` to the caller's VAImage is modelled by
keeping the stored copy in sync at every point the code writes through
either name. -/
structure object_image where
  image : Option VAImage
  vdp_rgba_surface : Nat
  deriving Repr

/-- object_surface: the fields of the external decode-surface object that
vdpau_GetImage reads. -/
structure object_surface where
  vdp_surface : Nat
  width : Nat
  height : Nat
  va_context : Nat
  deriving Repr

/-- object_buffer (vdpau_buffer.h): base address of the mapped storage and
its byte contents. -/
structure object_buffer where
  buffer_data : Nat
  contents : List Nat
  deriving Repr

/-- object_context: the field vdpau_GetImage reads on the RGBA path. -/
structure object_context where
  vdp_video_mixer : Nat
  deriving Repr

/-- The driver-wide object heaps consulted by the VDPAU_SURFACE /
VDPAU_IMAGE / VDPAU_BUFFER / VDPAU_CONTEXT macros, as partial maps from
identifiers to objects. -/
structure DriverState where
  surfaces : Nat → Option object_surface
  images : Nat → Option object_image
  buffers : Nat → Option object_buffer
  contexts : Nat → Option object_context

/-- External collaborators of vdpau_CreateImage / vdpau_DestroyImage:
the object-heap allocator, the accelerator surface create/destroy entry
points, and the buffer module (vdpau_buffer.c).
`heap_allocate = none` models object_heap_allocate returning a negative id.
`output_surface_create` returns (VdpStatus, handle written to the out
parameter); `create_buffer` returns (VAStatus, buffer id written to
image->buf on success). -/
structure CreateImageEnv where
  heap_allocate : Option Nat
  output_surface_create : Nat → Nat → Nat → Nat × Nat
  create_buffer : Nat → Nat × Nat
  destroy_buffer : Nat → Nat
  output_surface_destroy : Nat → Nat

/-- vdpau_DestroyImage (vdpau_image.c lines 271-292): resolve the image
object (INVALID_IMAGE if the id or its VAImage pointer does not resolve),
destroy the companion surface when its handle is valid (status discarded by
the C code), free the heap slot, and return the status of destroying the
backing buffer. -/
def vdpau_DestroyImage (env : CreateImageEnv) (st : DriverState)
    (image_id : Nat) : Nat × DriverState :=
  match st.images image_id with
  | none => (VA_STATUS_ERROR_INVALID_IMAGE, st)
  | some obj_image =>
    match obj_image.image with
    | none => (VA_STATUS_ERROR_INVALID_IMAGE, st)
    | some image =>
      -- the vdpau_output_surface_destroy call: its status is ignored and it
      -- only affects the external accelerator, so it has no observable
      -- effect in the model
      let st' : DriverState :=
        { st with images := fun j => if j = image_id then none else st.images j }
      (env.destroy_buffer image.buf, st')

/-- vdpau_CreateImage (vdpau_image.c lines 170-268).
Arguments: `format = none` models a NULL format pointer, `has_image = false`
a NULL image pointer, `image_init` the caller's VAImage contents before the
call.  Result: (VAStatus, final driver state, final contents of *image when
the pointer was non-NULL).  The RGBA catalog lookup and companion-surface
creation happen under the `fourcc = RGBA` guard exactly as in the C switch;
their failure reaches the `error:` label with the initial
VA_STATUS_ERROR_OPERATION_FAILED, which invokes vdpau_DestroyImage and
returns the saved status, discarding the teardown status. -/
def vdpau_CreateImage (env : CreateImageEnv) (st : DriverState)
    (format : Option VAImageFormat) (has_image : Bool) (image_init : VAImage)
    (width height : Nat) : Nat × DriverState × Option VAImage :=
  match format with
  | none => (VA_STATUS_ERROR_INVALID_PARAMETER, st, none)
  | some fmt =>
    if has_image = false then (VA_STATUS_ERROR_INVALID_IMAGE, st, none)
    else
      let i0 : VAImage := { image_init with image_id := 0, buf := 0 }
      match env.heap_allocate with
      | none => (VA_STATUS_ERROR_ALLOCATION_FAILED, st, some i0)
      | some image_id =>
        let i1 : VAImage := { i0 with image_id := image_id }
        let obj0 : object_image :=
          { image := some i1, vdp_rgba_surface := VDP_INVALID_HANDLE }
        let st1 : DriverState :=
          { st with images := fun j => if j = image_id then some obj0
                                       else st.images j }
        match plan fmt.fourcc width height with
        | none =>
          -- default: branch of the switch, goto error
          (VA_STATUS_ERROR_OPERATION_FAILED,
           (vdpau_DestroyImage env st1 image_id).2, some i1)
        | some layout =>
          -- RGBA-only steps of the switch, executed before the layout
          -- assignments the RGBA case falls through to
          let rgba_step : Option object_image :=
            if fmt.fourcc = VA_FOURCC_RGBA then
              if get_VdpRGBAFormat fmt = VDP_FORMAT_NOT_FOUND then none
              else if (env.output_surface_create (get_VdpRGBAFormat fmt)
                        width height).1 = VDP_STATUS_OK then
                some { obj0 with vdp_rgba_surface :=
                        (env.output_surface_create (get_VdpRGBAFormat fmt)
                          width height).2 }
              else none
            else some obj0
          match rgba_step with
          | none =>
            (VA_STATUS_ERROR_OPERATION_FAILED,
             (vdpau_DestroyImage env st1 image_id).2, some i1)
          | some obj1 =>
            let i2 : VAImage :=
              { i1 with num_planes := layout.num_planes,
                        pitches := layout.pitches,
                        offsets := layout.offsets,
                        data_size := layout.data_size }
            let st2 : DriverState :=
              { st1 with images := fun j =>
                  if j = image_id then some { obj1 with image := some i2 }
                  else st1.images j }
            if (env.create_buffer layout.data_size).1 = VA_STATUS_SUCCESS then
              let i3 : VAImage :=
                { i2 with buf := (env.create_buffer layout.data_size).2,
                          image_id := image_id, format := fmt,
                          width := width, height := height,
                          num_palette_entries := 0, entry_bytes := 0 }
              let st3 : DriverState :=
                { st2 with images := fun j =>
                    if j = image_id then some { obj1 with image := some i3 }
                    else st2.images j }
              (VA_STATUS_SUCCESS, st3, some i3)
            else
              ((env.create_buffer layout.data_size).1,
               (vdpau_DestroyImage env st2 image_id).2, some i2)

/-- External collaborators of vdpau_GetImage: the accelerator read-back
entry points (each returning a VdpStatus and the bytes written through the
destination pointers), the video-mixer render call, and the
vdpau_get_VAStatus translation of VdpStatus to VAStatus. -/
structure GetImageEnv where
  get_bits_ycbcr : Nat → Nat → List (Nat × Nat) → Nat × List Nat
  mixer_render : Nat → Nat → Nat × Nat × Nat × Nat → Nat → Nat
  get_bits_native : Nat → Nat × Nat × Nat × Nat → List (Nat × Nat) → Nat × List Nat
  to_VAStatus : Nat → Nat

/-- The src[]/src_stride[] loop of vdpau_GetImage (lines 374-377): for each
plane index below num_planes, the pair (buffer base + offsets[i],
pitches[i]). -/
def getimage_src_planes (base : Nat) (image : VAImage) : List (Nat × Nat) :=
  (List.range image.num_planes).map
    (fun i => (base + image.offsets.getD i 0, image.pitches.getD i 0))

/-- The YUV-path destination planes of vdpau_GetImage: the loop of lines
374-377 followed by the YV12 chroma swap of lines 380-387, which
reassigns plane 1 from offsets[2]/pitches[2] and plane 2 from
offsets[1]/pitches[1]. -/
def getimage_yuv_src (base : Nat) (image : VAImage) : List (Nat × Nat) :=
  let src := getimage_src_planes base image
  if image.format.fourcc = VA_FOURCC_YV12 then
    (src.set 1 (base + image.offsets.getD 2 0, image.pitches.getD 2 0)).set 2
      (base + image.offsets.getD 1 0, image.pitches.getD 1 0)
  else src

/-- vdpau_GetImage (vdpau_image.c lines 319-424).  Checks, in order: the
surface id resolves (INVALID_SURFACE), the rectangle is the full surface
extent (INVALID_PARAMETER), the image id and its VAImage pointer resolve
(INVALID_IMAGE), the image's buffer resolves (INVALID_BUFFER), then the
format resolves in the catalog (OPERATION_FAILED).  The YUV path hands the
(possibly YV12-swapped) destination planes to the accelerator's read-YCbCr
entry point; the RGBA path resolves the context (INVALID_CONTEXT), renders
through the mixer and reads back from the companion surface.  The bytes the
accelerator writes through the destination pointers are recorded as the new
contents of the image's buffer object; every error path returns the state
unchanged. -/
def vdpau_GetImage (env : GetImageEnv) (st : DriverState)
    (surface x y width height image_id : Nat) : Nat × DriverState :=
  match st.surfaces surface with
  | none => (VA_STATUS_ERROR_INVALID_SURFACE, st)
  | some obj_surface =>
    if x = 0 ∧ y = 0 ∧ obj_surface.width = width ∧
        obj_surface.height = height then
      match st.images image_id with
      | none => (VA_STATUS_ERROR_INVALID_IMAGE, st)
      | some obj_image =>
        match obj_image.image with
        | none => (VA_STATUS_ERROR_INVALID_IMAGE, st)
        | some image =>
          match st.buffers image.buf with
          | none => (VA_STATUS_ERROR_INVALID_BUFFER, st)
          | some obj_buffer =>
            if obj_image.vdp_rgba_surface = VDP_INVALID_HANDLE then
              if get_VdpYCbCrFormat image.format = VDP_FORMAT_NOT_FOUND then
                (VA_STATUS_ERROR_OPERATION_FAILED, st)
              else
                let src := getimage_yuv_src obj_buffer.buffer_data image
                let q := env.get_bits_ycbcr obj_surface.vdp_surface
                  (get_VdpYCbCrFormat image.format) src
                (env.to_VAStatus q.1,
                 { st with buffers := fun b =>
                     if b = image.buf then
                       some { obj_buffer with contents := q.2 }
                     else st.buffers b })
            else
              if get_VdpRGBAFormat image.format = VDP_FORMAT_NOT_FOUND then
                (VA_STATUS_ERROR_OPERATION_FAILED, st)
              else
                match st.contexts obj_surface.va_context with
                | none => (VA_STATUS_ERROR_INVALID_CONTEXT, st)
                | some obj_context =>
                  let r := (x, y, x + width, y + height)
                  let s1 := env.mixer_render obj_context.vdp_video_mixer
                    obj_surface.vdp_surface r obj_image.vdp_rgba_surface
                  if s1 = VDP_STATUS_OK then
                    let src := getimage_src_planes obj_buffer.buffer_data image
                    let q := env.get_bits_native obj_image.vdp_rgba_surface r src
                    (env.to_VAStatus q.1,
                     { st with buffers := fun b =>
                         if b = image.buf then
                           some { obj_buffer with contents := q.2 }
                         else st.buffers b })
                  else (env.to_VAStatus s1, st)
    else (VA_STATUS_ERROR_INVALID_PARAMETER, st)

example :
    (vdpau_GetImage
      { get_bits_ycbcr := fun _ _ _ => (VDP_STATUS_OK, [1]),
        mixer_render := fun _ _ _ _ => VDP_STATUS_OK,
        get_bits_native := fun _ _ _ => (VDP_STATUS_OK, [2]),
        to_VAStatus := fun s => if s = VDP_STATUS_OK then VA_STATUS_SUCCESS
                                else VA_STATUS_ERROR_OPERATION_FAILED }
      { surfaces := fun j => if j = 4 then
          some { vdp_surface := 9, width := 16, height := 16, va_context := 0 }
          else none,
        images := fun _ => none, buffers := fun _ => none,
        contexts := fun _ => none }
      4 1 0 16 16 7).1 = VA_STATUS_ERROR_INVALID_PARAMETER := by decide

/-- Claim C4: for every width and height (within the 32-bit-safe range of
the C arithmetic), the plane layout computed for the reversed-chroma
fully-planar 4:2:0 format YV12 is 3 planes, pitches (width, width2, width2),
offsets (0, size + size2, size) and data_size = size + 2*size2, where
size = width*height, width2 = ceil(width/2) = (width+1)/2,
height2 = (height+1)/2 and size2 = width2*height2. -/
theorem plan_yv12_layout (width height : Nat)
    (hw : width ≤ 32767) (hh : height ≤ 32767) :
    plan VA_FOURCC_YV12 width height =
      some { num_planes := 3,
             pitches := [width, (width + 1) / 2, (width + 1) / 2],
             offsets := [0,
               width * height + (width + 1) / 2 * ((height + 1) / 2),
               width * height],
             data_size :=
               width * height + 2 * ((width + 1) / 2 * ((height + 1) / 2)) } := by
  have hw2 : (width + 1) / 2 ≤ 16384 := by omega
  have hh2 : (height + 1) / 2 ≤ 16384 := by omega
  have m1 : width * height ≤ 32767 * 32767 := Nat.mul_le_mul hw hh
  have m2 : (width + 1) / 2 * ((height + 1) / 2) ≤ 16384 * 16384 :=
    Nat.mul_le_mul hw2 hh2
  simp only [plan, U32]
  rw [if_neg (by decide), if_pos trivial]
  simp [Nat.mod_eq_of_lt (show width < 4294967296 by omega),
    Nat.mod_eq_of_lt (show (width + 1) / 2 < 4294967296 by omega),
    Nat.mod_eq_of_lt (show (height + 1) / 2 < 4294967296 by omega),
    Nat.mod_eq_of_lt (show width * height < 4294967296 by omega),
    Nat.mod_eq_of_lt
      (show (width + 1) / 2 * ((height + 1) / 2) < 4294967296 by omega),
    Nat.mod_eq_of_lt (show width * height +
      (width + 1) / 2 * ((height + 1) / 2) < 4294967296 by omega),
    Nat.mod_eq_of_lt (show width * height +
      2 * ((width + 1) / 2 * ((height + 1) / 2)) < 4294967296 by omega)]

/-- Witness for C4 at width = 4, height = 4: size2 = 4 (width2 = height2 =
2), offsets[1] = 20, offsets[2] = 16, as the claim requires. -/
theorem plan_yv12_layout_witness :
    plan VA_FOURCC_YV12 4 4 =
      some { num_planes := 3, pitches := [4, 2, 2], offsets := [0, 20, 16],
             data_size := 24 } := by
  have h := plan_yv12_layout 4 4 (by decide) (by decide)
  simpa using h

/-- Claim C5: for every width and height (within the 32-bit-safe range of
the C arithmetic), the plane layout computed for the semi-planar 4:2:0
format NV12 is 2 planes, pitches (width, width), offsets (0, size), and
data_size = size + 2*size2 with size = width*height and
size2 = ((width+1)/2)*((height+1)/2). -/
theorem plan_nv12_layout (width height : Nat)
    (hw : width ≤ 32767) (hh : height ≤ 32767) :
    plan VA_FOURCC_NV12 width height =
      some { num_planes := 2,
             pitches := [width, width],
             offsets := [0, width * height],
             data_size :=
               width * height + 2 * ((width + 1) / 2 * ((height + 1) / 2)) } := by
  have hw2 : (width + 1) / 2 ≤ 16384 := by omega
  have hh2 : (height + 1) / 2 ≤ 16384 := by omega
  have m1 : width * height ≤ 32767 * 32767 := Nat.mul_le_mul hw hh
  have m2 : (width + 1) / 2 * ((height + 1) / 2) ≤ 16384 * 16384 :=
    Nat.mul_le_mul hw2 hh2
  simp only [plan, U32]
  rw [if_pos trivial]
  simp [Nat.mod_eq_of_lt (show width < 4294967296 by omega),
    Nat.mod_eq_of_lt (show (width + 1) / 2 < 4294967296 by omega),
    Nat.mod_eq_of_lt (show (height + 1) / 2 < 4294967296 by omega),
    Nat.mod_eq_of_lt (show width * height < 4294967296 by omega),
    Nat.mod_eq_of_lt
      (show (width + 1) / 2 * ((height + 1) / 2) < 4294967296 by omega),
    Nat.mod_eq_of_lt (show width * height +
      2 * ((width + 1) / 2 * ((height + 1) / 2)) < 4294967296 by omega)]

/-- Witness for C5 at width = 1920, height = 1080: data_size = 3110400 and
offsets[1] = 2073600, as the claim requires. -/
theorem plan_nv12_layout_witness :
    plan VA_FOURCC_NV12 1920 1080 =
      some { num_planes := 2, pitches := [1920, 1920],
             offsets := [0, 2073600], data_size := 3110400 } := by
  have h := plan_nv12_layout 1920 1080 (by decide) (by decide)
  simpa using h

/-- Claim C9: for every width and height (within the 32-bit-safe range of
the C arithmetic), the packed one-plane formats UYVY, YUYV and RGBA all get
1 plane, pitch = width*4 (also for the 16-bpp packed 4:2:2 formats),
offset 0 and data_size = pitch*height; and any fourcc outside the
supported set (NV12, YV12, RGBA, UYVY, YUYV) is rejected as unsupported
(the planner returns none, the `default:` branch of the switch). -/
theorem plan_packed_layout (width height : Nat)
    (hw : width ≤ 32767) (hh : height ≤ 32767) :
    (∀ fourcc, (fourcc = VA_FOURCC_RGBA ∨ fourcc = VA_FOURCC_UYVY ∨
        fourcc = VA_FOURCC_YUYV) →
      plan fourcc width height =
        some { num_planes := 1, pitches := [width * 4], offsets := [0],
               data_size := width * 4 * height }) ∧
    (∀ fourcc, fourcc ≠ VA_FOURCC_NV12 → fourcc ≠ VA_FOURCC_YV12 →
      fourcc ≠ VA_FOURCC_RGBA → fourcc ≠ VA_FOURCC_UYVY →
      fourcc ≠ VA_FOURCC_YUYV → plan fourcc width height = none) := by
  have m1 : width * 4 ≤ 32767 * 4 := Nat.mul_le_mul_right 4 hw
  have m2 : width * 4 * height ≤ 32767 * 4 * 32767 :=
    Nat.mul_le_mul (Nat.mul_le_mul_right 4 hw) hh
  constructor
  · intro fourcc hfc
    have h1 : fourcc ≠ VA_FOURCC_NV12 := by
      rcases hfc with rfl | rfl | rfl <;> decide
    have h2 : fourcc ≠ VA_FOURCC_YV12 := by
      rcases hfc with rfl | rfl | rfl <;> decide
    simp only [plan, U32]
    rw [if_neg h1, if_neg h2, if_pos hfc]
    simp [Nat.mod_eq_of_lt (show width * 4 < 4294967296 by omega),
      Nat.mod_eq_of_lt (show width * 4 * height < 4294967296 by omega)]
  · intro fourcc h1 h2 h3 h4 h5
    simp only [plan, U32]
    rw [if_neg h1, if_neg h2, if_neg (by tauto)]

/-- Witness for C9 at width = 2, height = 1: pitch = 8 and data_size = 8
for each packed fourcc, and the fourcc 0 (outside the supported set) is
rejected. -/
theorem plan_packed_layout_witness :
    plan VA_FOURCC_RGBA 2 1 =
      some { num_planes := 1, pitches := [8], offsets := [0],
             data_size := 8 } ∧
    plan VA_FOURCC_UYVY 2 1 =
      some { num_planes := 1, pitches := [8], offsets := [0],
             data_size := 8 } ∧
    plan 0 2 1 = none := by
  have h := plan_packed_layout 2 1 (by decide) (by decide)
  refine ⟨?_, ?_, ?_⟩
  · simpa using h.1 VA_FOURCC_RGBA (Or.inl rfl)
  · simpa using h.1 VA_FOURCC_UYVY (Or.inr (Or.inl rfl))
  · exact h.2 0 (by decide) (by decide) (by decide) (by decide) (by decide)

/-- Claim C7: every catalog entry round-trips through the lookup of its own
class (looking up its generic descriptor returns its native format code);
the two RGBA rows share a fourcc and a byte order yet are distinguished by
the mask comparison of the RGBA lookup; a descriptor matching no row of the
queried class yields the distinguished NOT_FOUND value; and NOT_FOUND is
never equal to zero (zero is the valid native code of the first RGBA row). -/
theorem catalog_roundtrip_lookup :
    (∀ m ∈ vdpau_image_formats_map,
      (m.type = VdpImageFormatType.ycbcr →
        get_VdpYCbCrFormat m.va_format = m.format) ∧
      (m.type = VdpImageFormatType.rgba →
        get_VdpRGBAFormat m.va_format = m.format) ∧
      m.format ≠ VDP_FORMAT_NOT_FOUND) ∧
    (∃ m1 ∈ vdpau_image_formats_map, ∃ m2 ∈ vdpau_image_formats_map,
      m1.type = VdpImageFormatType.rgba ∧ m2.type = VdpImageFormatType.rgba ∧
      m1.va_format.fourcc = m2.va_format.fourcc ∧
      m1.va_format.byte_order = m2.va_format.byte_order ∧
      m1.va_format ≠ m2.va_format ∧
      get_VdpRGBAFormat m1.va_format ≠ get_VdpRGBAFormat m2.va_format) ∧
    (∀ f : VAImageFormat,
      (∀ m ∈ vdpau_image_formats_map, ¬(m.type = VdpImageFormatType.ycbcr ∧
        m.va_format.fourcc = f.fourcc)) →
      get_VdpYCbCrFormat f = VDP_FORMAT_NOT_FOUND) ∧
    (∀ f : VAImageFormat,
      (∀ m ∈ vdpau_image_formats_map, ¬(m.type = VdpImageFormatType.rgba ∧
        m.va_format.fourcc = f.fourcc ∧
        m.va_format.byte_order = f.byte_order ∧
        m.va_format.red_mask = f.red_mask ∧
        m.va_format.green_mask = f.green_mask ∧
        m.va_format.blue_mask = f.blue_mask)) →
      get_VdpRGBAFormat f = VDP_FORMAT_NOT_FOUND) ∧
    VDP_FORMAT_NOT_FOUND ≠ 0 := by
  refine ⟨by decide, by decide, ?_, ?_, by decide⟩
  · intro f h
    have hfind : vdpau_image_formats_map.find? (fun m =>
        m.type == VdpImageFormatType.ycbcr &&
        m.va_format.fourcc == f.fourcc) = none := by
      rw [List.find?_eq_none]
      intro m hm
      have hh := h m hm
      simp only [Bool.and_eq_true, beq_iff_eq]
      tauto
    simp [get_VdpYCbCrFormat, hfind]
  · intro f h
    have hfind : vdpau_image_formats_map.find? (fun m =>
        m.type == VdpImageFormatType.rgba &&
        m.va_format.fourcc == f.fourcc &&
        m.va_format.byte_order == f.byte_order &&
        m.va_format.red_mask == f.red_mask &&
        m.va_format.green_mask == f.green_mask &&
        m.va_format.blue_mask == f.blue_mask) = none := by
      rw [List.find?_eq_none]
      intro m hm
      have hh := h m hm
      simp only [Bool.and_eq_true, beq_iff_eq]
      tauto
    simp [get_VdpRGBAFormat, hfind]

/-- Witness for C7: the YV12 row round-trips to native code 1, the second
RGBA row (red mask 0xff) round-trips to native code 1 while the first
(red mask 0xff0000) yields 0, and a descriptor with fourcc 0 misses both
lookups. -/
theorem catalog_roundtrip_lookup_witness :
    get_VdpYCbCrFormat
      { fourcc := VA_FOURCC_YV12, byte_order := VA_LSB_FIRST,
        bits_per_pixel := 12, depth := 0, red_mask := 0, green_mask := 0,
        blue_mask := 0, alpha_mask := 0 } = VDP_YCBCR_FORMAT_YV12 ∧
    get_VdpRGBAFormat
      { fourcc := VA_FOURCC_RGBA, byte_order := VA_LSB_FIRST,
        bits_per_pixel := 32, depth := 32, red_mask := 255,
        green_mask := 65280, blue_mask := 16711680,
        alpha_mask := 4278190080 } = VDP_RGBA_FORMAT_R8G8B8A8 ∧
    get_VdpYCbCrFormat
      { fourcc := 0, byte_order := VA_LSB_FIRST, bits_per_pixel := 0,
        depth := 0, red_mask := 0, green_mask := 0, blue_mask := 0,
        alpha_mask := 0 } = VDP_FORMAT_NOT_FOUND := by
  refine ⟨?_, ?_, ?_⟩
  · exact (catalog_roundtrip_lookup.1
      { type := .ycbcr, format := VDP_YCBCR_FORMAT_YV12,
        va_format := { fourcc := VA_FOURCC_YV12, byte_order := VA_LSB_FIRST,
                       bits_per_pixel := 12, depth := 0, red_mask := 0,
                       green_mask := 0, blue_mask := 0, alpha_mask := 0 } }
      (by decide)).1 rfl
  · exact (catalog_roundtrip_lookup.1
      { type := .rgba, format := VDP_RGBA_FORMAT_R8G8B8A8,
        va_format := { fourcc := VA_FOURCC_RGBA, byte_order := VA_LSB_FIRST,
                       bits_per_pixel := 32, depth := 32, red_mask := 255,
                       green_mask := 65280, blue_mask := 16711680,
                       alpha_mask := 4278190080 } }
      (by decide)).2.1 rfl
  · exact catalog_roundtrip_lookup.2.2.1
      { fourcc := 0, byte_order := VA_LSB_FIRST, bits_per_pixel := 0,
        depth := 0, red_mask := 0, green_mask := 0, blue_mask := 0,
        alpha_mask := 0 } (by decide)

/-- Claim C2 counterexample: with an accelerator state that supports every
format (all capability queries succeed and report support), the count-only
probe (NULL format_list) reports 0 while the fill call writes 7 entries, so
the two counts differ. -/
theorem query_probe_fill_count_cex :
    (vdpau_QueryImageFormats
      { query_ycbcr_caps := fun _ _ => (VDP_STATUS_OK, true),
        query_rgba_caps := fun _ => (VDP_STATUS_OK, true) } false).2.1 ≠
    (vdpau_QueryImageFormats
      { query_ycbcr_caps := fun _ _ => (VDP_STATUS_OK, true),
        query_rgba_caps := fun _ => (VDP_STATUS_OK, true) } true).2.1 := by
  decide

/-- Claim C2 amended: for every accelerator state, the count-only probe
(NULL output list) reports a count of 0 and succeeds without consulting the
accelerator, while a fill call writes exactly one entry per supported
catalog row, in catalog order, and reports the number of entries it wrote.
The two counts agree only when no catalog row is supported. -/
theorem query_probe_zero_fill_count (accel : Accel) :
    (vdpau_QueryImageFormats accel false).2.1 = 0 ∧
    (vdpau_QueryImageFormats accel false).1 = VA_STATUS_SUCCESS ∧
    (vdpau_QueryImageFormats accel true).2.1 =
      (vdpau_QueryImageFormats accel true).2.2.length ∧
    (vdpau_QueryImageFormats accel true).2.2 =
      (vdpau_image_formats_map.filter
        (fun f => is_supported_format accel f.type f.format)).map
        (fun f => f.va_format) := by
  refine ⟨rfl, rfl, ?_, rfl⟩
  simp [vdpau_QueryImageFormats]

/-- Claim C6: for every surface that resolves and every requested rectangle
that is not the full surface extent, vdpau_GetImage returns
INVALID_PARAMETER with the driver state unchanged, regardless of the
image id. -/
theorem getimage_partial_rect_invalid_param (env : GetImageEnv)
    (st : DriverState) (surface x y width height image_id : Nat)
    (s : object_surface) (hs : st.surfaces surface = some s)
    (hr : ¬(x = 0 ∧ y = 0 ∧ s.width = width ∧ s.height = height)) :
    vdpau_GetImage env st surface x y width height image_id =
      (VA_STATUS_ERROR_INVALID_PARAMETER, st) := by
  simp [vdpau_GetImage, hs, hr]

/-- Shared concrete oracle set for the vdpau_GetImage witnesses. -/
def env_w : GetImageEnv :=
  { get_bits_ycbcr := fun _ _ _ => (VDP_STATUS_OK, [1]),
    mixer_render := fun _ _ _ _ => VDP_STATUS_OK,
    get_bits_native := fun _ _ _ => (VDP_STATUS_OK, [2]),
    to_VAStatus := fun s => if s = VDP_STATUS_OK then VA_STATUS_SUCCESS
                            else VA_STATUS_ERROR_OPERATION_FAILED }

/-- Shared concrete surface object for the vdpau_GetImage witnesses. -/
def surf_w : object_surface :=
  { vdp_surface := 9, width := 16, height := 16, va_context := 0 }

/-- Shared concrete driver state for the vdpau_GetImage witnesses: one
surface with id 4 and nothing else. -/
def st_w : DriverState :=
  { surfaces := fun j => if j = 4 then some surf_w else none,
    images := fun _ => none, buffers := fun _ => none,
    contexts := fun _ => none }

/-- Witness for C6: get_image with x = 1 on a resolving 16x16 surface
returns INVALID_PARAMETER and leaves the state unchanged. -/
theorem getimage_partial_rect_invalid_param_witness :
    vdpau_GetImage env_w st_w 4 1 0 16 16 7 =
      (VA_STATUS_ERROR_INVALID_PARAMETER, st_w) :=
  getimage_partial_rect_invalid_param env_w st_w 4 1 0 16 16 7 surf_w
    rfl (by decide)

/-- Claim C10: vdpau_GetImage validates its arguments in a fixed order: an
unresolvable surface id yields INVALID_SURFACE before the rectangle is
examined; a resolving surface with a non-full rectangle yields
INVALID_PARAMETER before the image id is examined; only then are the image
(INVALID_IMAGE, for a missing slot or a missing VAImage pointer) and its
buffer (INVALID_BUFFER) resolved; each of these failures returns the
driver state unchanged. -/
theorem getimage_validation_order (env : GetImageEnv) (st : DriverState)
    (surface x y width height image_id : Nat) :
    (st.surfaces surface = none →
      vdpau_GetImage env st surface x y width height image_id =
        (VA_STATUS_ERROR_INVALID_SURFACE, st)) ∧
    (∀ s, st.surfaces surface = some s →
      ¬(x = 0 ∧ y = 0 ∧ s.width = width ∧ s.height = height) →
      vdpau_GetImage env st surface x y width height image_id =
        (VA_STATUS_ERROR_INVALID_PARAMETER, st)) ∧
    (∀ s, st.surfaces surface = some s →
      (x = 0 ∧ y = 0 ∧ s.width = width ∧ s.height = height) →
      st.images image_id = none →
      vdpau_GetImage env st surface x y width height image_id =
        (VA_STATUS_ERROR_INVALID_IMAGE, st)) ∧
    (∀ s oi, st.surfaces surface = some s →
      (x = 0 ∧ y = 0 ∧ s.width = width ∧ s.height = height) →
      st.images image_id = some oi → oi.image = none →
      vdpau_GetImage env st surface x y width height image_id =
        (VA_STATUS_ERROR_INVALID_IMAGE, st)) ∧
    (∀ s oi img, st.surfaces surface = some s →
      (x = 0 ∧ y = 0 ∧ s.width = width ∧ s.height = height) →
      st.images image_id = some oi → oi.image = some img →
      st.buffers img.buf = none →
      vdpau_GetImage env st surface x y width height image_id =
        (VA_STATUS_ERROR_INVALID_BUFFER, st)) := by
  refine ⟨?_, ?_, ?_, ?_, ?_⟩
  · intro hs
    simp [vdpau_GetImage, hs]
  · intro s hs hr
    simp [vdpau_GetImage, hs, hr]
  · intro s hs hfull hi
    obtain ⟨rfl, rfl, rfl, rfl⟩ := hfull
    simp [vdpau_GetImage, hs, hi]
  · intro s oi hs hfull hi hoi
    obtain ⟨rfl, rfl, rfl, rfl⟩ := hfull
    simp [vdpau_GetImage, hs, hi, hoi]
  · intro s oi img hs hfull hi hoi hb
    obtain ⟨rfl, rfl, rfl, rfl⟩ := hfull
    simp [vdpau_GetImage, hs, hi, hoi, hb]

/-- Shared concrete image objects for the vdpau_GetImage witnesses: image
id 7 is a YV12 image whose buffer id 3 resolves, image id 8 has no VAImage
pointer, image id 5 has a buffer id 99 that does not resolve. -/
def img_w : VAImage :=
  { image_id := 7, buf := 3,
    format := { fourcc := VA_FOURCC_YV12, byte_order := VA_LSB_FIRST,
                bits_per_pixel := 12, depth := 0, red_mask := 0,
                green_mask := 0, blue_mask := 0, alpha_mask := 0 },
    width := 16, height := 16, num_planes := 3,
    pitches := [16, 8, 8], offsets := [0, 320, 256], data_size := 384,
    num_palette_entries := 0, entry_bytes := 0 }

/-- A YV12 image whose buffer does not resolve, for the INVALID_BUFFER
witness. -/
def img_nobuf_w : VAImage := { img_w with buf := 99 }

/-- Driver state for the YUV-path witnesses: surface 4, YV12 image 7 with
buffer 3, image 8 without VAImage pointer, image 5 with a dangling buffer. -/
def st2_w : DriverState :=
  { surfaces := fun j => if j = 4 then some surf_w else none,
    images := fun j =>
      if j = 7 then some { image := some img_w,
                           vdp_rgba_surface := VDP_INVALID_HANDLE }
      else if j = 8 then some { image := none,
                                vdp_rgba_surface := VDP_INVALID_HANDLE }
      else if j = 5 then some { image := some img_nobuf_w,
                                vdp_rgba_surface := VDP_INVALID_HANDLE }
      else none,
    buffers := fun j => if j = 3 then
        some { buffer_data := 1000, contents := [] } else none,
    contexts := fun _ => none }

/-- Witness for C10: each validation failure at a concrete input — invalid
surface with x = 1 gives INVALID_SURFACE, a partial rectangle on a valid
surface gives INVALID_PARAMETER even with an invalid image id, a missing
image slot and a missing VAImage pointer give INVALID_IMAGE, a dangling
buffer gives INVALID_BUFFER — always with the state unchanged. -/
theorem getimage_validation_order_witness :
    vdpau_GetImage env_w st2_w 0 1 0 16 16 7 =
      (VA_STATUS_ERROR_INVALID_SURFACE, st2_w) ∧
    vdpau_GetImage env_w st2_w 4 1 0 16 16 999 =
      (VA_STATUS_ERROR_INVALID_PARAMETER, st2_w) ∧
    vdpau_GetImage env_w st2_w 4 0 0 16 16 999 =
      (VA_STATUS_ERROR_INVALID_IMAGE, st2_w) ∧
    vdpau_GetImage env_w st2_w 4 0 0 16 16 8 =
      (VA_STATUS_ERROR_INVALID_IMAGE, st2_w) ∧
    vdpau_GetImage env_w st2_w 4 0 0 16 16 5 =
      (VA_STATUS_ERROR_INVALID_BUFFER, st2_w) := by
  refine ⟨?_, ?_, ?_, ?_, ?_⟩
  · exact (getimage_validation_order env_w st2_w 0 1 0 16 16 7).1 rfl
  · exact (getimage_validation_order env_w st2_w 4 1 0 16 16 999).2.1
      surf_w rfl (by decide)
  · exact (getimage_validation_order env_w st2_w 4 0 0 16 16 999).2.2.1
      surf_w rfl (by exact ⟨rfl, rfl, rfl, rfl⟩) rfl
  · exact (getimage_validation_order env_w st2_w 4 0 0 16 16 8).2.2.2.1
      surf_w { image := none, vdp_rgba_surface := VDP_INVALID_HANDLE }
      rfl (by exact ⟨rfl, rfl, rfl, rfl⟩) rfl rfl
  · exact (getimage_validation_order env_w st2_w 4 0 0 16 16 5).2.2.2.2
      surf_w { image := some img_nobuf_w,
               vdp_rgba_surface := VDP_INVALID_HANDLE }
      img_nobuf_w rfl (by exact ⟨rfl, rfl, rfl, rfl⟩) rfl rfl rfl

/-- Claim C1: on the YUV path of vdpau_GetImage the destination planes
handed to the accelerator's read-YCbCr entry point are
`getimage_yuv_src`; for an image whose stored fourcc is YV12 (which this
driver always creates with 3 planes) plane 1 is built from
offsets[2]/pitches[2] and plane 2 from offsets[1]/pitches[1] (the two are
exchanged), while for every other YUV fourcc plane i uses
offsets[i]/pitches[i] unchanged. -/
theorem getimage_yv12_plane_swap (env : GetImageEnv) (st : DriverState)
    (surface image_id : Nat) (s : object_surface) (oi : object_image)
    (img : VAImage) (ob : object_buffer)
    (hs : st.surfaces surface = some s) (hi : st.images image_id = some oi)
    (hoi : oi.image = some img) (hb : st.buffers img.buf = some ob)
    (hyuv : oi.vdp_rgba_surface = VDP_INVALID_HANDLE)
    (hfmt : get_VdpYCbCrFormat img.format ≠ VDP_FORMAT_NOT_FOUND) :
    (vdpau_GetImage env st surface 0 0 s.width s.height image_id).1 =
      env.to_VAStatus (env.get_bits_ycbcr s.vdp_surface
        (get_VdpYCbCrFormat img.format)
        (getimage_yuv_src ob.buffer_data img)).1 ∧
    (img.format.fourcc = VA_FOURCC_YV12 → img.num_planes = 3 →
      getimage_yuv_src ob.buffer_data img =
        [(ob.buffer_data + img.offsets.getD 0 0, img.pitches.getD 0 0),
         (ob.buffer_data + img.offsets.getD 2 0, img.pitches.getD 2 0),
         (ob.buffer_data + img.offsets.getD 1 0, img.pitches.getD 1 0)]) ∧
    (img.format.fourcc ≠ VA_FOURCC_YV12 → ∀ i, i < img.num_planes →
      (getimage_yuv_src ob.buffer_data img).getD i (0, 0) =
        (ob.buffer_data + img.offsets.getD i 0, img.pitches.getD i 0)) := by
  refine ⟨?_, ?_, ?_⟩
  · simp [vdpau_GetImage, hs, hi, hoi, hb, hyuv, hfmt]
  · intro h4 hnp
    simp [getimage_yuv_src, getimage_src_planes, h4, hnp, List.range_succ]
  · intro hne i hlt
    simp only [getimage_yuv_src, getimage_src_planes, if_neg hne]
    rw [List.getD_eq_getElem?_getD, List.getElem?_map,
      List.getElem?_range hlt]
    rfl

/-- Witness for C1: in the concrete YUV state `st2_w` (YV12 image 7 with
offsets [0, 320, 256] and pitches [16, 8, 8], buffer base 1000) the
destination planes are swapped — plane 1 gets (1256, 8) from
offsets[2]/pitches[2] and plane 2 gets (1320, 8) from
offsets[1]/pitches[1] — and the status returned is the translation of the
read-YCbCr status on those planes. -/
theorem getimage_yv12_plane_swap_witness :
    (vdpau_GetImage env_w st2_w 4 0 0 16 16 7).1 =
      env_w.to_VAStatus (env_w.get_bits_ycbcr 9 VDP_YCBCR_FORMAT_YV12
        (getimage_yuv_src 1000 img_w)).1 ∧
    getimage_yuv_src 1000 img_w =
      [(1000, 16), (1256, 8), (1320, 8)] := by
  have h := getimage_yv12_plane_swap env_w st2_w 4 7 surf_w
    { image := some img_w, vdp_rgba_surface := VDP_INVALID_HANDLE }
    img_w { buffer_data := 1000, contents := [] }
    rfl rfl rfl rfl rfl (by decide)
  refine ⟨h.1, ?_⟩
  have h2 := h.2.1 rfl rfl
  simpa [img_w] using h2

/-- Shared concrete collaborator set for the vdpau_CreateImage theorems:
the heap hands out slot 1, surface and buffer creation succeed, the
teardown sub-steps succeed. -/
def env_c : CreateImageEnv :=
  { heap_allocate := some 1,
    output_surface_create := fun _ _ _ => (VDP_STATUS_OK, 7),
    create_buffer := fun _ => (VA_STATUS_SUCCESS, 3),
    destroy_buffer := fun _ => VA_STATUS_SUCCESS,
    output_surface_destroy := fun _ => VDP_STATUS_OK }

/-- Empty driver state for the vdpau_CreateImage theorems. -/
def st_c : DriverState :=
  { surfaces := fun _ => none, images := fun _ => none,
    buffers := fun _ => none, contexts := fun _ => none }

/-- An RGBA-fourcc descriptor whose channel masks match no catalog row. -/
def bad_rgba_format : VAImageFormat :=
  { fourcc := VA_FOURCC_RGBA, byte_order := VA_LSB_FIRST,
    bits_per_pixel := 32, depth := 32, red_mask := 0, green_mask := 0,
    blue_mask := 0, alpha_mask := 0 }

/-- A blank initial VAImage (the caller's struct before the call). -/
def image_init_c : VAImage :=
  { image_id := 0, buf := 0,
    format := { fourcc := 0, byte_order := 0, bits_per_pixel := 0,
                depth := 0, red_mask := 0, green_mask := 0, blue_mask := 0,
                alpha_mask := 0 },
    width := 0, height := 0, num_planes := 0, pitches := [], offsets := [],
    data_size := 0, num_palette_entries := 0, entry_bytes := 0 }

/-- Claim C3 counterexample: create_image with an RGBA-class descriptor
matching no catalog row (fourcc RGBA, all channel masks zero) returns
VA_STATUS_ERROR_OPERATION_FAILED — not an INVALID status as the claim
requires — because the `goto error` after the failed get_VdpRGBAFormat
lookup returns the initial va_status of line 182. -/
theorem create_rgba_miss_status_cex :
    (vdpau_CreateImage env_c st_c (some bad_rgba_format) true image_init_c
      4 4).1 = VA_STATUS_ERROR_OPERATION_FAILED ∧
    VA_STATUS_ERROR_OPERATION_FAILED ≠ VA_STATUS_ERROR_INVALID_PARAMETER ∧
    VA_STATUS_ERROR_OPERATION_FAILED ≠ VA_STATUS_ERROR_INVALID_IMAGE := by
  refine ⟨?_, by decide, by decide⟩
  decide

/-- Claim C3 amended: for every width, height and driver state, create_image
called with an RGBA-class generic descriptor whose (fourcc, byte-order,
channel masks) combination matches no catalog entry fails with
VA_STATUS_ERROR_OPERATION_FAILED (not an INVALID status), releasing the
already-allocated image slot. -/
theorem create_rgba_miss_fails_operation (env : CreateImageEnv)
    (st : DriverState) (fmt : VAImageFormat) (image_init : VAImage)
    (width height id : Nat) (halloc : env.heap_allocate = some id)
    (h4 : fmt.fourcc = VA_FOURCC_RGBA)
    (hmiss : get_VdpRGBAFormat fmt = VDP_FORMAT_NOT_FOUND) :
    (vdpau_CreateImage env st (some fmt) true image_init width height).1 =
      VA_STATUS_ERROR_OPERATION_FAILED ∧
    (vdpau_CreateImage env st (some fmt) true image_init
      width height).2.1.images id = none := by
  have hplan : plan VA_FOURCC_RGBA width height =
      some { num_planes := 1, pitches := [width * 4 % U32], offsets := [0],
             data_size := (0 + width * 4 % U32 * height) % U32 } := rfl
  constructor <;>
    simp [vdpau_CreateImage, halloc, hplan, h4, hmiss, vdpau_DestroyImage]

/-- Witness for the amended C3 at the concrete input of the
counterexample: status OPERATION_FAILED and slot 1 freed. -/
theorem create_rgba_miss_fails_operation_witness :
    (vdpau_CreateImage env_c st_c (some bad_rgba_format) true image_init_c
      4 4).1 = VA_STATUS_ERROR_OPERATION_FAILED ∧
    (vdpau_CreateImage env_c st_c (some bad_rgba_format) true image_init_c
      4 4).2.1.images 1 = none :=
  create_rgba_miss_fails_operation env_c st_c bad_rgba_format image_init_c
    4 4 1 rfl rfl (by decide)

/-- Claim C8: every failure of vdpau_CreateImage after its image slot has
been allocated — unsupported fourcc (the planner's `default:` case), RGBA
catalog miss, companion-surface creation failure, or backing-buffer
allocation failure — invokes the vdpau_DestroyImage teardown path, so the
allocated heap slot `id` is free afterwards, and the status returned is the
original failure status (OPERATION_FAILED for an unsupported fourcc, the
vdpau_CreateBuffer status for a buffer failure).  The teardown status is
discarded, so the conclusion holds for every `env.destroy_buffer`, i.e.
even if the teardown sub-step itself fails. -/
theorem create_failure_teardown (env : CreateImageEnv) (st : DriverState)
    (fmt : VAImageFormat) (image_init : VAImage) (width height id : Nat)
    (halloc : env.heap_allocate = some id) :
    (plan fmt.fourcc width height = none →
      (vdpau_CreateImage env st (some fmt) true image_init width height).1 =
        VA_STATUS_ERROR_OPERATION_FAILED ∧
      (vdpau_CreateImage env st (some fmt) true image_init
        width height).2.1.images id = none) ∧
    (fmt.fourcc = VA_FOURCC_RGBA →
      get_VdpRGBAFormat fmt = VDP_FORMAT_NOT_FOUND →
      (vdpau_CreateImage env st (some fmt) true image_init width height).1 =
        VA_STATUS_ERROR_OPERATION_FAILED ∧
      (vdpau_CreateImage env st (some fmt) true image_init
        width height).2.1.images id = none) ∧
    (fmt.fourcc = VA_FOURCC_RGBA →
      get_VdpRGBAFormat fmt ≠ VDP_FORMAT_NOT_FOUND →
      (env.output_surface_create (get_VdpRGBAFormat fmt)
        width height).1 ≠ VDP_STATUS_OK →
      (vdpau_CreateImage env st (some fmt) true image_init width height).1 =
        VA_STATUS_ERROR_OPERATION_FAILED ∧
      (vdpau_CreateImage env st (some fmt) true image_init
        width height).2.1.images id = none) ∧
    (∀ layout, plan fmt.fourcc width height = some layout →
      fmt.fourcc ≠ VA_FOURCC_RGBA →
      (env.create_buffer layout.data_size).1 ≠ VA_STATUS_SUCCESS →
      (vdpau_CreateImage env st (some fmt) true image_init width height).1 =
        (env.create_buffer layout.data_size).1 ∧
      (vdpau_CreateImage env st (some fmt) true image_init
        width height).2.1.images id = none) ∧
    (fmt.fourcc = VA_FOURCC_RGBA →
      get_VdpRGBAFormat fmt ≠ VDP_FORMAT_NOT_FOUND →
      (env.output_surface_create (get_VdpRGBAFormat fmt)
        width height).1 = VDP_STATUS_OK →
      (env.create_buffer
        ((0 + width * 4 % U32 * height) % U32)).1 ≠ VA_STATUS_SUCCESS →
      (vdpau_CreateImage env st (some fmt) true image_init width height).1 =
        (env.create_buffer ((0 + width * 4 % U32 * height) % U32)).1 ∧
      (vdpau_CreateImage env st (some fmt) true image_init
        width height).2.1.images id = none) := by
  have hplan_rgba : plan VA_FOURCC_RGBA width height =
      some { num_planes := 1, pitches := [width * 4 % U32], offsets := [0],
             data_size := (0 + width * 4 % U32 * height) % U32 } := rfl
  refine ⟨?_, ?_, ?_, ?_, ?_⟩
  · intro hplan
    constructor <;>
      simp [vdpau_CreateImage, halloc, hplan, vdpau_DestroyImage]
  · intro h4 hmiss
    constructor <;>
      simp [vdpau_CreateImage, halloc, hplan_rgba, h4, hmiss,
        vdpau_DestroyImage]
  · intro h4 hhit hsc
    constructor <;>
      simp [vdpau_CreateImage, halloc, hplan_rgba, h4, hhit, hsc,
        vdpau_DestroyImage]
  · intro layout hplan hne hbuf
    constructor <;>
      simp [vdpau_CreateImage, halloc, hplan, hne, hbuf,
        vdpau_DestroyImage]
  · intro h4 hhit hsc hbuf
    have harg : (0 + width * 4 % U32 * height) % U32 =
        width * 4 * height % U32 := by
      simp [Nat.mod_mul_mod]
    rw [harg] at hbuf
    constructor <;>
      simp [vdpau_CreateImage, halloc, hplan_rgba, h4, hhit, hsc, hbuf,
        harg, vdpau_DestroyImage]

/-- A fourcc the creation switch does not support (AYUV is in the catalog
for enumeration but has no layout case in vdpau_CreateImage). -/
def fmt_unsupported : VAImageFormat :=
  { fourcc := VA_FOURCC_AYUV, byte_order := VA_LSB_FIRST,
    bits_per_pixel := 32, depth := 0, red_mask := 0, green_mask := 0,
    blue_mask := 0, alpha_mask := 0 }

/-- The first RGBA catalog row's descriptor (resolves to native code 0). -/
def good_rgba_format : VAImageFormat :=
  { fourcc := VA_FOURCC_RGBA, byte_order := VA_LSB_FIRST,
    bits_per_pixel := 32, depth := 32, red_mask := 16711680,
    green_mask := 65280, blue_mask := 255, alpha_mask := 4278190080 }

/-- Collaborators where companion-surface creation fails and the teardown
sub-steps also fail, to exercise the discarded teardown status. -/
def env_badsurf : CreateImageEnv :=
  { heap_allocate := some 1,
    output_surface_create := fun _ _ _ => (3, 0),
    create_buffer := fun _ => (VA_STATUS_SUCCESS, 3),
    destroy_buffer := fun _ => VA_STATUS_ERROR_INVALID_BUFFER,
    output_surface_destroy := fun _ => 3 }

/-- Collaborators where the backing-buffer allocation fails and the
teardown buffer release also fails. -/
def env_badbuf : CreateImageEnv :=
  { heap_allocate := some 1,
    output_surface_create := fun _ _ _ => (VDP_STATUS_OK, 7),
    create_buffer := fun _ => (VA_STATUS_ERROR_ALLOCATION_FAILED, 0),
    destroy_buffer := fun _ => VA_STATUS_ERROR_INVALID_BUFFER,
    output_surface_destroy := fun _ => VDP_STATUS_OK }

/-- Witness for C8: at concrete inputs, an unsupported fourcc (AYUV) gives
OPERATION_FAILED with slot 1 free afterwards; a companion-surface creation
failure gives OPERATION_FAILED with the slot free even though the teardown
buffer release fails; and a backing-buffer allocation failure on NV12
reports the buffer status (ALLOCATION_FAILED), not the failing teardown
status, with the slot free. -/
theorem create_failure_teardown_witness :
    ((vdpau_CreateImage env_c st_c (some fmt_unsupported) true image_init_c
        4 4).1 = VA_STATUS_ERROR_OPERATION_FAILED ∧
      (vdpau_CreateImage env_c st_c (some fmt_unsupported) true image_init_c
        4 4).2.1.images 1 = none) ∧
    ((vdpau_CreateImage env_badsurf st_c (some good_rgba_format) true
        image_init_c 4 4).1 = VA_STATUS_ERROR_OPERATION_FAILED ∧
      (vdpau_CreateImage env_badsurf st_c (some good_rgba_format) true
        image_init_c 4 4).2.1.images 1 = none) ∧
    ((vdpau_CreateImage env_badbuf st_c
        (some { fourcc := VA_FOURCC_NV12, byte_order := VA_LSB_FIRST,
                bits_per_pixel := 12, depth := 0, red_mask := 0,
                green_mask := 0, blue_mask := 0, alpha_mask := 0 }) true
        image_init_c 4 4).1 = VA_STATUS_ERROR_ALLOCATION_FAILED ∧
      (vdpau_CreateImage env_badbuf st_c
        (some { fourcc := VA_FOURCC_NV12, byte_order := VA_LSB_FIRST,
                bits_per_pixel := 12, depth := 0, red_mask := 0,
                green_mask := 0, blue_mask := 0, alpha_mask := 0 }) true
        image_init_c 4 4).2.1.images 1 = none) := by
  refine ⟨?_, ?_, ?_⟩
  · exact (create_failure_teardown env_c st_c fmt_unsupported image_init_c
      4 4 1 rfl).1 rfl
  · exact (create_failure_teardown env_badsurf st_c good_rgba_format
      image_init_c 4 4 1 rfl).2.2.1 rfl (by decide) (by decide)
  · exact (create_failure_teardown env_badbuf st_c
      { fourcc := VA_FOURCC_NV12, byte_order := VA_LSB_FIRST,
        bits_per_pixel := 12, depth := 0, red_mask := 0, green_mask := 0,
        blue_mask := 0, alpha_mask := 0 } image_init_c 4 4 1
      rfl).2.2.2.1
      { num_planes := 2, pitches := [4, 4], offsets := [0, 16],
        data_size := 24 } (by decide) (by decide) (by decide)

/-- An accelerator state supporting nothing, for the C2 witness. -/
def accel_none : Accel :=
  { query_ycbcr_caps := fun _ _ => (VDP_STATUS_OK, false),
    query_rgba_caps := fun _ => (VDP_STATUS_OK, false) }

/-- Witness for the amended C2 at a concrete accelerator state: the probe
count is 0 and the fill count equals the number of entries written. -/
theorem query_probe_zero_fill_count_witness :
    (vdpau_QueryImageFormats accel_none false).2.1 = 0 ∧
    (vdpau_QueryImageFormats accel_none true).2.1 =
      (vdpau_QueryImageFormats accel_none true).2.2.length :=
  ⟨(query_probe_zero_fill_count accel_none).1,
   (query_probe_zero_fill_count accel_none).2.2.1⟩
